import Mathlib

/-!
Verification of `src/generar_tablas.py`.

The script builds a list `data` holding one header row followed by 50
randomly generated rows `[nombre, edad, ciudad]` and writes it to
`personas.csv` with `csv.writer` (file opened with `mode='w', newline=''`).

The random source is embedded as a stream of natural numbers together with
a position: each call to `random.choice` or `random.randint` consumes one
value of the stream.  `random.choice l` turns the drawn value `d` into the
element `l[d % len l]` (every element of `l` is reachable and nothing else
is, matching the guarantee of Python's `random.choice` on a non-empty
list); `random.randint a b` turns it into `a + d % (b + 1 - a)` (every
integer of `[a, b]` is reachable and nothing else is).
-/

/-- A random source: an infinite stream of draws and the current position. -/
structure Gen where
  stream : Nat → Nat
  pos : Nat

/-- Consume one draw from the source. -/
def Gen.next (g : Gen) : Nat × Gen :=
  (g.stream g.pos, ⟨g.stream, g.pos + 1⟩)

/-- The source advanced by `k` draws. -/
def Gen.advance (g : Gen) (k : Nat) : Gen :=
  ⟨g.stream, g.pos + k⟩

namespace random

/-- Embedding of `random.choice` on a list of strings. -/
def choice (l : List String) (g : Gen) : String × Gen :=
  let (d, g1) := g.next
  (l.getD (d % l.length) "", g1)

/-- Embedding of `random.randint a b` (both endpoints included). -/
def randint (a b : Nat) (g : Gen) : Nat × Gen :=
  let (d, g1) := g.next
  (a + d % (b + 1 - a), g1)

end random

/-- `nombres` list of `generar_tablas.py`, line 5. -/
def nombres : List String :=
  ["Juan", "Ana", "Luis", "Maria", "Pedro", "Lucia", "Carlos", "Sofia",
   "Diego", "Elena"]

/-- `ciudades` list of `generar_tablas.py`, line 6. -/
def ciudades : List String :=
  ["Madrid", "Barcelona", "Valencia", "Sevilla", "Bilbao", "Zaragoza",
   "Malaga", "Granada", "Murcia", "Alicante"]

/-- A cell of a row: the script stores strings (names, cities) and Python
ints (ages). -/
inductive Cell where
  | str (s : String)
  | int (n : Nat)
deriving DecidableEq, Repr

/-- A row of `data`: a list of fields. -/
abbrev Row := List Cell

/-- The header row `["Nombre", "Edad", "Ciudad"]` (line 9). -/
def header : Row :=
  [Cell.str "Nombre", Cell.str "Edad", Cell.str "Ciudad"]

/-- The `for _ in range(n)` loop of lines 10-14: each iteration draws a
name, an age and a city, in that order, and appends the row to the
accumulator. -/
def genLoop : Nat → List Row → Gen → List Row × Gen
  | 0, rows, g => (rows, g)
  | Nat.succ n, rows, g =>
    let (nombre, g1) := random.choice nombres g
    let (edad, g2) := random.randint 18 65 g1
    let (ciudad, g3) := random.choice ciudades g2
    genLoop n (rows ++ [[Cell.str nombre, Cell.int edad, Cell.str ciudad]]) g3

/-- The full `data` list: header row followed by the 50 generated rows. -/
def data (g : Gen) : List Row :=
  (genLoop 50 [header] g).1

/-- The file name, line 17. -/
def filename : String := "personas.csv"

/-- `str()` conversion applied by the `csv` module to each cell. -/
def fieldToString : Cell → String
  | Cell.str s => s
  | Cell.int n => Nat.repr n

/-- The line terminator of the `csv.writer` default dialect (`excel`):
always `"\r\n"`, on every platform; `newline=''` in `open` makes Python
write it verbatim. -/
def lineTerminator : String := "\r\n"

/-- Whether the `csv` module (default `QUOTE_MINIMAL`) must quote a field:
it contains the delimiter, the quote character, or a character of the line
terminator. -/
def mustQuote (s : String) : Bool :=
  s.data.any (fun c => c == ',' || c == '"' || c == '\r' || c == '\n')

/-- A field as serialized by the `csv` module: quoted, with inner quote
characters doubled, exactly when `mustQuote` holds. -/
def quoted (s : String) : String :=
  if mustQuote s then "\"" ++ s.replace "\"" "\"\"" ++ "\"" else s

/-- One row as written by `csv.writer`: fields serialized, joined with
commas, terminated by `lineTerminator`. -/
def csvLine (r : Row) : String :=
  String.intercalate "," (r.map (fun f => quoted (fieldToString f))) ++ lineTerminator

/-- `writer.writerows data`: the concatenation of the serialized rows. -/
def writerows (rows : List Row) : String :=
  String.join (rows.map csvLine)

/-- The full content written to `personas.csv` for random source `g`. -/
def fileContent (g : Gen) : String :=
  writerows (data g)

/-- The random source whose every draw is `0`: every list selection
returns the first element and every age draw returns the minimum. -/
def gen0 : Gen := ⟨fun _ => 0, 0⟩

/-- The row the loop produces at iteration `i` (0-indexed): it is built
from draws `g.pos + 3*i`, `g.pos + 3*i + 1`, `g.pos + 3*i + 2` of the
stream, feeding the name, the age and the city respectively. -/
def rowAt (g : Gen) (i : Nat) : Row :=
  [Cell.str (nombres.getD (g.stream (g.pos + 3 * i) % nombres.length) ""),
   Cell.int (18 + g.stream (g.pos + 3 * i + 1) % 48),
   Cell.str (ciudades.getD (g.stream (g.pos + 3 * i + 2) % ciudades.length) "")]

theorem rowAt_shift (g : Gen) (i : Nat) :
    rowAt (Gen.advance g 3) i = rowAt g (i + 1) := by
  simp only [rowAt, Gen.advance]
  have h1 : g.pos + 3 + 3 * i = g.pos + 3 * (i + 1) := by ring
  rw [h1]

/-- Closed form of the generation loop: it appends the rows `rowAt g 0`,
…, `rowAt g (n-1)` to the accumulator and consumes `3 * n` draws. -/
theorem genLoop_spec (n : Nat) (rows : List Row) (g : Gen) :
    genLoop n rows g = (rows ++ (List.range n).map (rowAt g), g.advance (3 * n)) := by
  induction n generalizing rows g with
  | zero => simp [genLoop, Gen.advance]
  | succ n ih =>
    have hstep : genLoop (n + 1) rows g =
        genLoop n (rows ++ [rowAt g 0]) (Gen.advance g 3) := by
      simp [genLoop, random.choice, random.randint, Gen.next, Gen.advance, rowAt]
    have hshift : rowAt (Gen.advance g 3) = fun i => rowAt g (i + 1) :=
      funext fun i => rowAt_shift g i
    rw [hstep, ih, hshift]
    refine Prod.ext ?_ ?_
    · show rows ++ [rowAt g 0] ++ (List.range n).map (fun i => rowAt g (i + 1)) =
        rows ++ (List.range (n + 1)).map (rowAt g)
      rw [List.range_succ_eq_map, List.append_assoc]
      simp [List.map_map, Function.comp]
    · show Gen.advance (Gen.advance g 3) (3 * n) = Gen.advance g (3 * (n + 1))
      simp only [Gen.advance]
      congr 1
      ring

/-- `data` in closed form: the header followed by the 50 generated rows. -/
theorem data_eq (g : Gen) : data g = header :: (List.range 50).map (rowAt g) := by
  simp [data, genLoop_spec]

/-- Modelled from the spec: the state of the file system seen by the
script, which the repository itself does not implement — whether the
working directory exists and is writable, and the files it holds
(path, content). -/
structure FileSys where
  cwdExists : Bool
  cwdWritable : Bool
  files : List (String × String)

/-- Store `content` under `name`, replacing any previous entry. -/
def setFile (files : List (String × String)) (name content : String) :
    List (String × String) :=
  (name, content) :: files.filter (fun kv => kv.1 != name)

/-- Modelled from the spec: the default diagnostic of the propagated
I/O error. -/
def ioErrorMsg : String := "No such file or directory"

/-- Modelled from the spec: one run of the script against file system
`fs` with random source `g`.  `open(filename, mode='w', newline='')`
succeeds iff the working directory exists and is writable; on success the
file is created or truncated and receives the serialized dataset; on
failure the exception propagates unchanged (the script installs no
handler). -/
def runProgram (fs : FileSys) (g : Gen) : Except String FileSys :=
  if fs.cwdExists && fs.cwdWritable then
    Except.ok { fs with files := setFile fs.files filename (fileContent g) }
  else
    Except.error ioErrorMsg

/-- Modelled from the spec: the process exit status — `0` when the run
completes, nonzero when the uncaught exception terminates it. -/
def exitCode : Except String FileSys → Nat
  | Except.ok _ => 0
  | Except.error _ => 1

/-- The files on disk after a run (unchanged when the run fails before
writing). -/
def filesAfter (fs : FileSys) (g : Gen) : List (String × String) :=
  match runProgram fs g with
  | Except.ok fs2 => fs2.files
  | Except.error _ => fs.files

theorem lookup_setFile_self (files : List (String × String)) (name content : String) :
    List.lookup name (setFile files name content) = some content := by
  simp [setFile, List.lookup]

theorem lookup_filter_ne (p name : String) (h : p ≠ name)
    (files : List (String × String)) :
    List.lookup p (files.filter (fun kv => kv.1 != name)) = List.lookup p files := by
  have hpn : (p == name) = false := beq_eq_false_iff_ne.mpr h
  induction files with
  | nil => rfl
  | cons kv rest ih =>
    obtain ⟨k, v⟩ := kv
    by_cases hk : k = name
    · have hkb : (k != name) = false := by simp [hk]
      have hp : (p == k) = false := by rw [hk]; exact hpn
      simp [List.filter, List.lookup, hkb, hp, hpn, ih]
    · have hkb : (k != name) = true := by simp [hk]
      by_cases hpk : p = k
      · have hp : (p == k) = true := by simp [hpk]
        simp [List.filter, List.lookup, hkb, hp]
      · have hp : (p == k) = false := beq_eq_false_iff_ne.mpr hpk
        simp [List.filter, List.lookup, hkb, hp, ih]

theorem lookup_setFile_ne (files : List (String × String))
    (name content p : String) (h : p ≠ name) :
    List.lookup p (setFile files name content) = List.lookup p files := by
  have hp : (p == name) = false := beq_eq_false_iff_ne.mpr h
  simp only [setFile, List.lookup, hp]
  exact lookup_filter_ne p name h files

/-- An element picked by index modulo the length of a non-empty list is a
member of the list. -/
theorem getD_mod_mem (l : List String) (hl : l ≠ []) (d : Nat) :
    l.getD (d % l.length) "" ∈ l := by
  have hlen : 0 < l.length := List.length_pos.mpr hl
  have hlt : d % l.length < l.length := Nat.mod_lt _ hlen
  rw [List.getD_eq_getElem l "" hlt]
  exact List.getElem_mem hlt

/-- A field that needs no quoting is serialized verbatim. -/
theorem quoted_eq_self {s : String} (h : mustQuote s = false) : quoted s = s := by
  simp [quoted, h]

/-- The decimal representation of any age value contains no character the
`csv` module would quote for. -/
theorem repr_no_quote : ∀ a : Nat, a < 66 → mustQuote (Nat.repr a) = false := by
  decide

/-- The random source whose every draw is `47`. -/
def gen47 : Gen := ⟨fun _ => 47, 0⟩

/-- A random source that starts reading its stream at position 5. -/
def genA : Gen := ⟨fun k => k, 5⟩

/-- A random source whose stream is `genA`'s shifted by 5, read from 0. -/
def genB : Gen := ⟨fun k => k + 5, 0⟩

/-- A file system whose working directory is missing. -/
def fsBad : FileSys := ⟨false, true, []⟩

/-- A writable file system already holding a stale `personas.csv` and an
unrelated file. -/
def fsGood : FileSys := ⟨true, true, [(filename, "old"), ("other.txt", "keep")]⟩

/-- C1 (counterexample): on a concrete run the header line of the produced
dataset is `Nombre,Edad,Ciudad`, which differs from the claimed
`Name,Age,City`. -/
theorem c1_counterexample :
    (data gen0).headD [] = header ∧
    csvLine header = "Nombre,Edad,Ciudad" ++ lineTerminator ∧
    "Nombre,Edad,Ciudad" ≠ "Name,Age,City" :=
  ⟨by decide, by decide, by decide⟩

/-- C1 (amended): for every run, the header line of the produced dataset
(and of `personas.csv`) is exactly `Nombre,Edad,Ciudad`. -/
theorem c1_header_line (g : Gen) :
    (data g).headD [] = header ∧
    csvLine header = "Nombre,Edad,Ciudad" ++ lineTerminator := by
  refine ⟨?_, by decide⟩
  rw [data_eq]
  rfl

/-- C2: for every random source, the produced dataset has exactly 51 rows
— the header followed by 50 data rows — and the file content is exactly
the concatenation of their 51 serialized lines. -/
theorem c2_fifty_one_lines (g : Gen) :
    (data g).length = 51 ∧
    (data g).headD [] = header ∧
    (data g).tail.length = 50 ∧
    fileContent g = String.join ((data g).map csvLine) := by
  refine ⟨?_, ?_, ?_, rfl⟩ <;> rw [data_eq] <;> simp

/-- C3: in every run, every data row is `[name, age, city]` with the name
drawn from `nombres`, the age an integer of `[18, 65]` and the city drawn
from `ciudades`; both age endpoints are attainable. -/
theorem c3_row_fields :
    (∀ g : Gen, ∀ r ∈ (data g).tail, ∃ n a c,
        r = [Cell.str n, Cell.int a, Cell.str c] ∧
        n ∈ nombres ∧ 18 ≤ a ∧ a ≤ 65 ∧ c ∈ ciudades) ∧
    (∃ g : Gen, ∃ r ∈ (data g).tail, Cell.int 18 ∈ r) ∧
    (∃ g : Gen, ∃ r ∈ (data g).tail, Cell.int 65 ∈ r) := by
  refine ⟨?_, ⟨gen0, by decide⟩, ⟨gen47, by decide⟩⟩
  intro g r hr
  rw [data_eq] at hr
  simp only [List.tail_cons, List.mem_map, List.mem_range] at hr
  obtain ⟨i, _, rfl⟩ := hr
  refine ⟨_, _, _, rfl, ?_, ?_, ?_, ?_⟩
  · exact getD_mod_mem nombres (by decide) _
  · exact Nat.le_add_right 18 _
  · have hm : g.stream (g.pos + 3 * i + 1) % 48 < 48 := Nat.mod_lt _ (by norm_num)
    omega
  · exact getD_mod_mem ciudades (by decide) _

/-- C4: when every draw of the random source is `0` (first element of each
list, minimum of the age range), the first data row is exactly
`Juan,18,Madrid`. -/
theorem c4_first_row :
    (data gen0).getD 1 [] = [Cell.str "Juan", Cell.int 18, Cell.str "Madrid"] ∧
    csvLine ((data gen0).getD 1 []) = "Juan,18,Madrid" ++ lineTerminator :=
  ⟨by decide, by decide⟩

/-- C5: two runs whose random sources deliver the same sequence of draws
produce byte-identical file contents: the output is a function of the
draws alone. -/
theorem c5_determinism (g1 g2 : Gen)
    (h : ∀ k, g1.stream (g1.pos + k) = g2.stream (g2.pos + k)) :
    fileContent g1 = fileContent g2 := by
  have hrow : rowAt g1 = rowAt g2 := by
    funext i
    have k1 := h (3 * i)
    have k2 := h (3 * i + 1)
    have k3 := h (3 * i + 2)
    have e1 : g1.pos + (3 * i + 1) = g1.pos + 3 * i + 1 := by ring
    have e2 : g2.pos + (3 * i + 1) = g2.pos + 3 * i + 1 := by ring
    have e3 : g1.pos + (3 * i + 2) = g1.pos + 3 * i + 2 := by ring
    have e4 : g2.pos + (3 * i + 2) = g2.pos + 3 * i + 2 := by ring
    rw [e1, e2] at k2
    rw [e3, e4] at k3
    simp only [rowAt]
    rw [k1, k2, k3]
  simp only [fileContent, writerows, data_eq, hrow]

/-- C5 (witness): two concrete sources with equal draw sequences but
different stream representations give identical output. -/
theorem c5_determinism_witness : fileContent genA = fileContent genB :=
  c5_determinism genA genB (fun k => by show 5 + k = 0 + k + 5; omega)

/-- Modelled from the spec: the native line terminator of a POSIX
platform, which a "platform-appropriate" serialization would have to use
there. -/
def posixNewline : String := "\n"

/-- C6 (counterexample): every serialized line ends with the fixed
terminator `"\r\n"`, which is not the POSIX-native newline, so the
terminator is not the platform's native newline on every platform. -/
theorem c6_counterexample :
    csvLine header = "Nombre,Edad,Ciudad" ++ lineTerminator ∧
    lineTerminator ≠ posixNewline :=
  ⟨by decide, by decide⟩

/-- C6 (amended): for every run, each record of the dataset is serialized
as one comma-delimited line terminated with the fixed terminator `"\r\n"`
(CRLF) — the `csv` module's default, written verbatim on every platform
because the file is opened with `newline=''`. -/
theorem c6_crlf_lines (g : Gen) :
    lineTerminator = "\r\n" ∧
    fileContent g = String.join ((data g).map (fun r =>
      String.intercalate "," (r.map (fun f => quoted (fieldToString f))) ++ "\r\n")) :=
  ⟨rfl, rfl⟩

/-- C7: when the working directory is missing or not writable, the run
propagates the I/O error unchanged, exits with a nonzero status and does
not report success; when the write succeeds the exit status is `0`. -/
theorem c7_error_propagation (fs : FileSys) (g : Gen) :
    (fs.cwdExists = false ∨ fs.cwdWritable = false →
      runProgram fs g = Except.error ioErrorMsg ∧
      exitCode (runProgram fs g) ≠ 0 ∧
      ¬ ∃ fs2, runProgram fs g = Except.ok fs2) ∧
    (fs.cwdExists = true ∧ fs.cwdWritable = true →
      exitCode (runProgram fs g) = 0) := by
  constructor
  · intro h
    have hb : (fs.cwdExists && fs.cwdWritable) = false := by
      rcases h with h | h <;> simp [h]
    simp [runProgram, exitCode, hb]
  · rintro ⟨h1, h2⟩
    simp [runProgram, exitCode, h1, h2]

/-- C7 (witness): a concrete missing-directory run fails with the I/O
error and a nonzero status; a concrete writable run exits with status 0. -/
theorem c7_error_propagation_witness :
    runProgram fsBad gen0 = Except.error ioErrorMsg ∧
    exitCode (runProgram fsBad gen0) ≠ 0 ∧
    exitCode (runProgram fsGood gen0) = 0 :=
  ⟨((c7_error_propagation fsBad gen0).1 (Or.inl rfl)).1,
   ((c7_error_propagation fsBad gen0).1 (Or.inl rfl)).2.1,
   (c7_error_propagation fsGood gen0).2 ⟨rfl, rfl⟩⟩

/-- C8: a successful run leaves `personas.csv` holding exactly the
serialized dataset — independently of any prior content — and leaves every
other file unchanged. -/
theorem c8_overwrite (fs : FileSys) (g : Gen)
    (hE : fs.cwdExists = true) (hW : fs.cwdWritable = true) :
    List.lookup filename (filesAfter fs g) = some (fileContent g) ∧
    ∀ p, p ≠ filename →
      List.lookup p (filesAfter fs g) = List.lookup p fs.files := by
  have hb : (fs.cwdExists && fs.cwdWritable) = true := by simp [hE, hW]
  have hfa : filesAfter fs g = setFile fs.files filename (fileContent g) := by
    simp [filesAfter, runProgram, hb]
  rw [hfa]
  exact ⟨lookup_setFile_self _ _ _, fun p hp => lookup_setFile_ne _ _ _ p hp⟩

/-- C8 (witness): on a concrete file system with a stale `personas.csv`
and an unrelated file, the run replaces the former and preserves the
latter. -/
theorem c8_overwrite_witness :
    List.lookup filename (filesAfter fsGood gen0) = some (fileContent gen0) ∧
    List.lookup "other.txt" (filesAfter fsGood gen0) =
      List.lookup "other.txt" fsGood.files :=
  ⟨(c8_overwrite fsGood gen0 rfl rfl).1,
   (c8_overwrite fsGood gen0 rfl rfl).2 "other.txt" (by decide)⟩

/-- C9: every row of the dataset has exactly three fields, none of whose
serialized values contains a comma, double quote, carriage return or line
feed, so each line is the plain comma-join of its three fields with no
quoting or escaping. -/
theorem c9_no_quoting (g : Gen) (r : Row) (hr : r ∈ data g) :
    r.length = 3 ∧
    (∀ f ∈ r, mustQuote (fieldToString f) = false) ∧
    csvLine r = String.intercalate "," (r.map fieldToString) ++ lineTerminator := by
  have hnoms : ∀ s ∈ nombres, mustQuote s = false := by decide
  have hcits : ∀ s ∈ ciudades, mustQuote s = false := by decide
  have hfields : ∀ f ∈ r, mustQuote (fieldToString f) = false := by
    rw [data_eq] at hr
    rcases List.mem_cons.mp hr with hh | hm
    · subst hh
      decide
    · obtain ⟨i, _, rfl⟩ := List.mem_map.mp hm
      intro f hf
      simp only [rowAt, List.mem_cons, List.not_mem_nil, or_false] at hf
      rcases hf with rfl | rfl | rfl
      · exact hnoms _ (getD_mod_mem nombres (by decide) _)
      · have hm48 : g.stream (g.pos + 3 * i + 1) % 48 < 48 := Nat.mod_lt _ (by norm_num)
        exact repr_no_quote _ (by omega)
      · exact hcits _ (getD_mod_mem ciudades (by decide) _)
  have hlen : r.length = 3 := by
    rw [data_eq] at hr
    rcases List.mem_cons.mp hr with hh | hm
    · subst hh; rfl
    · obtain ⟨i, _, rfl⟩ := List.mem_map.mp hm
      rfl
  refine ⟨hlen, hfields, ?_⟩
  simp only [csvLine]
  congr 1
  congr 1
  exact List.map_congr_left fun f hf => quoted_eq_self (hfields f hf)

/-- C9 (witness): the first data row of a concrete run has three fields
and serializes as the plain comma-join of their values. -/
theorem c9_no_quoting_witness :
    ((data gen0).getD 1 []).length = 3 ∧
    csvLine ((data gen0).getD 1 []) =
      String.intercalate "," (((data gen0).getD 1 []).map fieldToString) ++
        lineTerminator :=
  ⟨(c9_no_quoting gen0 _ (by decide)).1, (c9_no_quoting gen0 _ (by decide)).2.2⟩

/-- C10: a full run consumes exactly 150 draws — three per iteration, in
the order name, age, city — and the k-th data row (0-indexed) is built
from draws `pos + 3k`, `pos + 3k + 1`, `pos + 3k + 2` of the source. -/
theorem c10_draw_order (g : Gen) :
    (genLoop 50 [header] g).2.pos = g.pos + 150 ∧
    ∀ k, k < 50 → (data g).tail.getD k [] =
      [Cell.str (nombres.getD (g.stream (g.pos + 3 * k) % nombres.length) ""),
       Cell.int (18 + g.stream (g.pos + 3 * k + 1) % 48),
       Cell.str (ciudades.getD (g.stream (g.pos + 3 * k + 2) % ciudades.length) "")] := by
  constructor
  · rw [genLoop_spec]
    show g.pos + 3 * 50 = g.pos + 150
    norm_num
  · intro k hk
    rw [data_eq]
    simp only [List.tail_cons]
    have hklen : k < ((List.range 50).map (rowAt g)).length := by
      simpa using hk
    rw [List.getD_eq_getElem _ _ hklen]
    simp [rowAt]

/-- C10 (witness): on the all-zeros source the loop ends at position 150
and the first data row is the one built from draws 0, 1, 2. -/
theorem c10_draw_order_witness :
    (genLoop 50 [header] gen0).2.pos = gen0.pos + 150 ∧
    (data gen0).tail.getD 0 [] = [Cell.str "Juan", Cell.int 18, Cell.str "Madrid"] := by
  refine ⟨(c10_draw_order gen0).1, ?_⟩
  have h := (c10_draw_order gen0).2 0 (by norm_num)
  rw [h]
  decide
